import Mathlib

namespace CdtCheck

/-- Python's builtin one-argument round: nearest integer, ties to the even
integer.  The source uses it for the progress-bar cell count and (via the
two-argument form) for percentage rounding. -/
def pyRound (q : ℚ) : ℤ :=
  if q - ⌊q⌋ < 1/2 then ⌊q⌋
  else if 1/2 < q - ⌊q⌋ then ⌊q⌋ + 1
  else if ⌊q⌋ % 2 = 0 then ⌊q⌋ else ⌊q⌋ + 1

/-- Python's round(x, 2): round to two decimal places, ties to even. -/
def pyRound2 (q : ℚ) : ℚ := (pyRound (q * 100) : ℚ) / 100

/-- The Python exceptions relevant to the embedded fragment.  The source never
constructs a ConfigurationError; the constructor exists so that the claim
about it can be stated. -/
inductive PyExc
  | zeroDivision
  | configuration
deriving DecidableEq, Repr

/-- Rendering of an exception as the str(e) message interpolated into error
notifications by the source's generic handlers. -/
def excMessage : PyExc → String
  | PyExc.zeroDivision => "float division by zero"
  | PyExc.configuration => "ConfigurationError"

/-- get_traffic: sums the Traffic field over the returned traffic-detail items
(a missing field counts as 0 via dict.get), converts bytes to GB, and returns
0 when the remote call raises (the except branch). -/
def get_traffic (resp : Except String (List (Option ℤ))) : ℚ :=
  match resp with
  | Except.error _ => 0
  | Except.ok items => (((items.map fun i => i.getD 0).sum : ℤ) : ℚ) / (1024 * 1024 * 1024)

/-- One entry of the Permissions.Permission array returned by
DescribeSecurityGroupAttribute; absent string fields are modelled as "". -/
structure SGRule where
  ipProtocol : String
  sourceCidrIp : String
  policy : String
  nicType : String
  direction : String
deriving DecidableEq, Repr

/-- The per-rule test from is_security_group_rule_enabled. -/
def ruleMatches (r : SGRule) : Bool :=
  r.ipProtocol.toUpper == "ALL" && r.sourceCidrIp == "0.0.0.0/0" &&
  r.policy == "Accept" && r.nicType == "intranet" && r.direction == "ingress"

/-- is_security_group_rule_enabled: true when some returned permission is the
allow-all 0.0.0.0/0 ingress intranet rule; a raising query is caught and
yields false. -/
def is_security_group_rule_enabled (resp : Except String (List SGRule)) : Bool :=
  match resp with
  | Except.error _ => false
  | Except.ok perms => perms.any ruleMatches

/-- get_security_group_id: first entry of SecurityGroupIds.SecurityGroupId;
an empty list (IndexError) or raising query is caught and yields None. -/
def get_security_group_id (resp : Except String (List String)) : Option String :=
  match resp with
  | Except.error _ => none
  | Except.ok ids => ids.head?

/-- The fields of one instance record that get_instance_details reads. -/
structure InstanceInfo where
  expiredTime : Option String
  eipAddress : Option String
deriving DecidableEq, Repr

/-- get_instance_details: (expiry, public ip) with the source's fallback
strings; a raising query degrades both fields to the query-failed marker.
Python truthiness makes an empty EipAddress string fall back too. -/
def get_instance_details (resp : Except String (List InstanceInfo)) : String × String :=
  match resp with
  | Except.error _ => ("查询失败", "查询失败")
  | Except.ok [] => ("无到期时间", "无公网 IP 地址")
  | Except.ok (inst :: _) =>
      (inst.expiredTime.getD "无到期时间",
       match inst.eipAddress with
       | some ip => if ip.isEmpty then "无公网 IP 地址" else ip
       | none => "无公网 IP 地址")

/-- The REGION_NAMES table of the source. -/
def REGION_NAMES : List (String × String) :=
  [("cn-qingdao", "华北1(青岛)"), ("cn-beijing", "华北2(北京)"),
   ("cn-zhangjiakou", "华北3(张家口)"), ("cn-huhehaote", "华北5(呼和浩特)"),
   ("cn-wulanchabu", "华北6(乌兰察布)"), ("cn-hangzhou", "华东1(杭州)"),
   ("cn-shanghai", "华东2(上海)"), ("cn-nanjing", "华东5 (南京-本地地域)"),
   ("cn-fuzhou", "华东6(福州-本地地域)"), ("cn-wuhan-lr", "华中1(武汉-本地地域)"),
   ("cn-shenzhen", "华南1(深圳)"), ("cn-heyuan", "华南2(河源)"),
   ("cn-guangzhou", "华南3(广州)"), ("cn-chengdu", "西南1(成都)"),
   ("cn-hongkong", "中国香港"), ("ap-southeast-1", "新加坡"),
   ("ap-southeast-2", "澳大利亚(悉尼)"), ("ap-southeast-3", "马来西亚(吉隆坡)"),
   ("ap-southeast-5", "印度尼西亚(雅加达)"), ("ap-southeast-6", "菲律宾(马尼拉)"),
   ("ap-southeast-7", "泰国(曼谷)"), ("ap-northeast-1", "日本(东京)"),
   ("ap-northeast-2", "韩国(首尔)"), ("us-west-1", "美国(硅谷)"),
   ("us-east-1", "美国(弗吉尼亚)"), ("eu-central-1", "德国(法兰克福)"),
   ("eu-west-1", "英国(伦敦)"), ("me-east-1", "阿联酋(迪拜)"),
   ("me-central-1", "沙特(利雅得)")]

/-- get_region_name with its unknown-region fallback. -/
def get_region_name (regionId : String) : String :=
  match REGION_NAMES.lookup regionId with
  | some n => n
  | none => "未知地区"

/-- The usage computation of check line 385.  Python raises ZeroDivisionError
when the quota is zero, so the evaluation is fallible. -/
def usageEval (trafficGB maxTraffic : ℚ) : Except PyExc ℚ :=
  if maxTraffic = 0 then Except.error PyExc.zeroDivision
  else Except.ok (pyRound2 (trafficGB / maxTraffic * 100))

/-- A Python value returned by one channel send: True, False, or str(e). -/
inductive SendResult
  | sTrue
  | sFalse
  | sErr (msg : String)
deriving DecidableEq, Repr

/-- Behaviour of one channel's transport during a send attempt: the request
completes (with or without a success status) or an exception is raised. -/
inductive ChannelBehavior
  | respond (ok : Bool)
  | raise (msg : String)
deriving DecidableEq, Repr

/-- The channel-enable switches of the Notification config. -/
structure FanoutFlags where
  enableEmail : Bool
  enableBark : Bool
  enableTG : Bool
  enableWebhook : Bool
  enableQywx : Bool
deriving DecidableEq, Repr

/-- One transport behaviour per channel for a given send. -/
structure FanoutBehaviors where
  email : ChannelBehavior
  bark : ChannelBehavior
  tg : ChannelBehavior
  webhook : ChannelBehavior
  qywx : ChannelBehavior
deriving DecidableEq, Repr

/-- send_email_notification: SMTP delivery returns True; an exception is
caught and returned as the error string str(e). -/
def send_email_notification : ChannelBehavior → SendResult
  | ChannelBehavior.respond _ => SendResult.sTrue
  | ChannelBehavior.raise m => SendResult.sErr m

/-- send_bark_notification: status_code == 200 decides the boolean; an
exception is caught and returned as False. -/
def send_bark_notification : ChannelBehavior → SendResult
  | ChannelBehavior.respond ok => if ok then SendResult.sTrue else SendResult.sFalse
  | ChannelBehavior.raise _ => SendResult.sFalse

/-- send_tg_notification: same catch-to-False shape as the Bark channel. -/
def send_tg_notification : ChannelBehavior → SendResult
  | ChannelBehavior.respond ok => if ok then SendResult.sTrue else SendResult.sFalse
  | ChannelBehavior.raise _ => SendResult.sFalse

/-- send_webhook_notification: same catch-to-False shape. -/
def send_webhook_notification : ChannelBehavior → SendResult
  | ChannelBehavior.respond ok => if ok then SendResult.sTrue else SendResult.sFalse
  | ChannelBehavior.raise _ => SendResult.sFalse

/-- send_qywx_notification: errcode == 0 decides the boolean; any exception in
the two-step flow is caught and returned as False. -/
def send_qywx_notification : ChannelBehavior → SendResult
  | ChannelBehavior.respond ok => if ok then SendResult.sTrue else SendResult.sFalse
  | ChannelBehavior.raise _ => SendResult.sFalse

/-- The results dict built by send_notification, in the source's insertion
order; each enabled channel contributes exactly one entry. -/
def send_notification_results (f : FanoutFlags) (b : FanoutBehaviors) :
    List (String × SendResult) :=
  (if f.enableEmail then [("email", send_email_notification b.email)] else []) ++
  (if f.enableBark then [("bark", send_bark_notification b.bark)] else []) ++
  (if f.enableTG then [("tg", send_tg_notification b.tg)] else []) ++
  (if f.enableWebhook then [("webhook", send_webhook_notification b.webhook)] else []) ++
  (if f.enableQywx then [("qywx", send_qywx_notification b.qywx)] else [])

/-- The aggregate returned by send_notification: Python's True, or the
failure string interpolating the full per-channel results dict. -/
inductive FanoutAggregate
  | success
  | failure (results : List (String × SendResult))
deriving DecidableEq, Repr

/-- send_notification's final loop: return True only when every entry is
True, otherwise a failure value embedding the whole results dict. -/
def send_notification (f : FanoutFlags) (b : FanoutBehaviors) : FanoutAggregate :=
  let rs := send_notification_results f b
  if rs.all fun r => r.2 == SendResult.sTrue then FanoutAggregate.success
  else FanoutAggregate.failure rs

/-- A configured account record (the fields the check path reads). -/
structure Account where
  accountName : Option String
  accessKeyId : String
  accessKeySecret : String
  regionId : String
  instanceId : String
  maxTraffic : ℚ
deriving DecidableEq, Repr

/-- The responses of the remote services during one account's processing.
sgAttrResp stands for the DescribeSecurityGroupAttribute response of the
chained get_security_group_id query (an error covers both a raising query and
the missing-id case); revokeResp and authorizeResp are the outcomes of the
two mutating calls, were they issued. -/
structure RemoteWorld where
  describeInstancesResp : Except String (List String)
  trafficResp : Except String (List (Option ℤ))
  sgIdResp : Except String (List String)
  detailsResp : Except String (List InstanceInfo)
  sgAttrResp : Except String (List SGRule)
  revokeResp : Except String Unit
  authorizeResp : Except String Unit
  fanoutBehaviors : FanoutBehaviors

/-- The per-account run-log dict of check, with the numeric fields carried as
values (the source interpolates them into strings). -/
structure LogRecord where
  instanceId : String
  server : String
  totalTraffic : ℚ
  usedTraffic : ℚ
  usagePercent : ℚ
  region : String
  expireTime : String
  publicIp : String
  reached95 : String
  sgState : String
deriving DecidableEq, Repr

/-- The 通知发送 field recorded after a toggle: 成功, 失败 embedding the
fanout results, or 不需要. -/
inductive NotifSendStatus
  | success
  | failed (results : List (String × SendResult))
  | notNeeded
deriving DecidableEq, Repr

/-- A record handed to send_notification: either the error template (keyed by
错误信息) or the normal per-account report. -/
inductive NotifMsg
  | error (server instanceId errMsg : String)
  | report (log : LogRecord)
deriving DecidableEq, Repr

/-- True on the report (toggle) template. -/
def NotifMsg.isReport : NotifMsg → Bool
  | NotifMsg.report _ => true
  | NotifMsg.error _ _ _ => false

/-- A mutating security-group call. -/
inductive MutCall
  | revoke
  | authorize
deriving DecidableEq, Repr

/-- disable_security_group_rule: issues RevokeSecurityGroup, catches any
exception, and only prints; the return value is always None.  The printed
line is the sole observable difference between success and failure. -/
def disable_security_group_rule (resp : Except String Unit) : List String :=
  match resp with
  | Except.ok _ => ["已禁用0.0.0.0/0的全部协议规则"]
  | Except.error e => ["禁用安全组规则异常: " ++ e]

/-- enable_security_group_rule: same shape for AuthorizeSecurityGroup. -/
def enable_security_group_rule (resp : Except String Unit) : List String :=
  match resp with
  | Except.ok _ => ["已恢复0.0.0.0/0的全部协议规则"]
  | Except.error e => ["恢复安全组规则异常: " ++ e]

/-- validate_credentials_and_instance: queries DescribeInstances and checks
membership of the configured instance id; both the raising query and the
missing id produce False together with one error notification record. -/
def validate_credentials_and_instance (acct : Account)
    (resp : Except String (List String)) : Bool × List NotifMsg :=
  match resp with
  | Except.ok ids =>
      if ids.contains acct.instanceId then (true, [])
      else (false, [NotifMsg.error (acct.accountName.getD "") acct.instanceId
                      ("指定的实例ID不存在: " ++ acct.instanceId)])
  | Except.error e =>
      (false, [NotifMsg.error (acct.accountName.getD "") acct.instanceId e])

/-- Everything observable that one iteration of check's account loop emits:
the mutating calls issued, the records handed to the notification fanout, the
run-log entry appended (with its 通知发送 status), and the printed lines of
the mutating helpers. -/
structure AccountResult where
  mutations : List MutCall
  notifs : List NotifMsg
  log : Option (LogRecord × NotifSendStatus)
  printed : List String
deriving DecidableEq, Repr

/-- Conversion of the fanout aggregate into the recorded 通知发送 value. -/
def aggStatus : FanoutAggregate → NotifSendStatus
  | FanoutAggregate.success => NotifSendStatus.success
  | FanoutAggregate.failure rs => NotifSendStatus.failed rs

/-- The threshold branch of check (lines 409-428): compare the usage with 95,
mutate when the observed state disagrees with the desired one, and send the
toggle notification exactly in the two mutating branches. -/
def check_toggle (f : FanoutFlags) (w : RemoteWorld) (baseLog : LogRecord)
    (usage : ℚ) (enabled : Bool) : AccountResult :=
  if 95 ≤ usage then
    if enabled then
      let log := { baseLog with sgState := "已禁用 0.0.0.0/0 访问规则" }
      { mutations := [MutCall.revoke],
        notifs := [NotifMsg.report log],
        log := some (log, aggStatus (send_notification f w.fanoutBehaviors)),
        printed := disable_security_group_rule w.revokeResp }
    else
      { mutations := [], notifs := [],
        log := some ({ baseLog with sgState := "规则已禁用，无需操作" },
                     NotifSendStatus.notNeeded),
        printed := [] }
  else
    if enabled = false then
      let log := { baseLog with sgState := "已恢复 0.0.0.0 访问规则" }
      { mutations := [MutCall.authorize],
        notifs := [NotifMsg.report log],
        log := some (log, aggStatus (send_notification f w.fanoutBehaviors)),
        printed := enable_security_group_rule w.authorizeResp }
    else
      { mutations := [], notifs := [],
        log := some ({ baseLog with sgState := "规则已启用，无需操作" },
                     NotifSendStatus.notNeeded),
        printed := [] }

/-- The try body of check's loop: fetch traffic, compute the usage percentage
(raising on a zero quota, caught by the loop's generic handler into one error
notification), assemble the log record and run the threshold branch. -/
def check_account_body (f : FanoutFlags) (acct : Account) (w : RemoteWorld) :
    AccountResult :=
  let traffic := get_traffic w.trafficResp
  let accountName := acct.accountName.getD (acct.accessKeyId.take 7 ++ "***")
  match usageEval traffic acct.maxTraffic with
  | Except.error exc =>
      { mutations := [],
        notifs := [NotifMsg.error accountName acct.instanceId (excMessage exc)],
        log := none, printed := [] }
  | Except.ok usage =>
      let details := get_instance_details w.detailsResp
      let baseLog : LogRecord :=
        { instanceId := acct.instanceId, server := accountName,
          totalTraffic := acct.maxTraffic, usedTraffic := pyRound2 traffic,
          usagePercent := usage, region := get_region_name acct.regionId,
          expireTime := details.1, publicIp := details.2,
          reached95 := if 95 ≤ usage then "是" else "否", sgState := "" }
      check_toggle f w baseLog usage (is_security_group_rule_enabled w.sgAttrResp)

/-- One iteration of check's account loop: the validation gate short-circuits
with its error notification, otherwise the try body runs. -/
def processAccount (f : FanoutFlags) (acct : Account) (w : RemoteWorld) :
    AccountResult :=
  let v := validate_credentials_and_instance acct w.describeInstancesResp
  if v.1 then check_account_body f acct w
  else { mutations := [], notifs := v.2, log := none, printed := [] }

/-- check: the whole run maps the loop body over the accounts (each paired
with its remote responses) and writes the collected log entries at the end. -/
def check (f : FanoutFlags) (accounts : List (Account × RemoteWorld)) :
    List AccountResult × List (LogRecord × NotifSendStatus) :=
  let results := accounts.map fun aw => processAccount f aw.1 aw.2
  (results, results.filterMap fun r => r.log)

/-- The reconcile decision of the spec, read off the branch structure of
check lines 409-428. -/
inductive Action
  | none
  | disable
  | enable
deriving DecidableEq, Repr

/-- reconcile(observedEnabled, usagePercentage) following the source's nested
conditionals. -/
def reconcile (observedEnabled : Bool) (usagePercentage : ℚ) : Action :=
  if 95 ≤ usagePercentage then
    if observedEnabled then Action.disable else Action.none
  else
    if observedEnabled = false then Action.enable else Action.none

/-- The firewall state that results from applying an action: Disable revokes
the rule (state false), Enable restores it (state true), None leaves it. -/
def applyAction : Action → Bool → Bool
  | Action.disable, _ => false
  | Action.enable, _ => true
  | Action.none, s => s

/-- The usage percentage check computes for an account whose quota is not
zero. -/
def usageOf (acct : Account) (w : RemoteWorld) : ℚ :=
  pyRound2 (get_traffic w.trafficResp / acct.maxTraffic * 100)

/-- The firewall-rule state check observes for an account. -/
def observedEnabled (w : RemoteWorld) : Bool :=
  is_security_group_rule_enabled w.sgAttrResp

/-- The daily-digest progress bar's filled-cell count (dailyjob lines
101-114): progress_val is round(usage_percentage) and the general branch
rounds 0.5 + 20 * progress_val / 100, clamped to the 20 cells. -/
def progress_do_num (p : ℚ) : ℤ :=
  if 0 < p ∧ p < 1 then 1
  else if pyRound p = 0 then 0
  else if 95 < pyRound p ∧ p < 100 then 20 - 1
  else min 20 (pyRound (1/2 + (20 * (pyRound p : ℚ)) / 100))

/-- The rendered bar: filled cells then empty cells, with the source's
progress_undo_num = 20 - progress_do_num (Python string repetition treats a
negative count as zero). -/
def progress_bar (p : ℚ) : String :=
  let d := progress_do_num p
  String.mk (List.replicate d.toNat '■' ++ List.replicate (20 - d).toNat '□')

/-- Sample notification flags: all channels disabled. -/
def sampleFlags : FanoutFlags := ⟨false, false, false, false, false⟩

/-- Sample transport behaviours: every channel would succeed. -/
def sampleBehaviors : FanoutBehaviors :=
  ⟨ChannelBehavior.respond true, ChannelBehavior.respond true,
   ChannelBehavior.respond true, ChannelBehavior.respond true,
   ChannelBehavior.respond true⟩

/-- Sample account: 20 GB quota. -/
def sampleAccount : Account :=
  { accountName := some "acct", accessKeyId := "LTAI0000000",
    accessKeySecret := "sk", regionId := "cn-hongkong", instanceId := "i-123",
    maxTraffic := 20 }

/-- Sample remote responses: the instance is visible, one GB was used, and
the allow-all rule is present. -/
def sampleWorld : RemoteWorld :=
  { describeInstancesResp := Except.ok ["i-123", "i-456"],
    trafficResp := Except.ok [some (1024 * 1024 * 1024), none],
    sgIdResp := Except.ok ["sg-1"],
    detailsResp := Except.ok [⟨some "2030-01-01T00:00:00Z", some "1.2.3.4"⟩],
    sgAttrResp := Except.ok [⟨"ALL", "0.0.0.0/0", "Accept", "intranet", "ingress"⟩],
    revokeResp := Except.ok (),
    authorizeResp := Except.ok (),
    fanoutBehaviors := sampleBehaviors }

theorem floor_le_pyRound (q : ℚ) : ⌊q⌋ ≤ pyRound q := by
  unfold pyRound; split_ifs <;> omega

theorem pyRound_le_floor_add_one (q : ℚ) : pyRound q ≤ ⌊q⌋ + 1 := by
  unfold pyRound; split_ifs <;> omega

theorem le_pyRound (q : ℚ) : q - 1/2 ≤ (pyRound q : ℚ) := by
  have hfl : (⌊q⌋ : ℚ) ≤ q := Int.floor_le q
  have hfu : q < ⌊q⌋ + 1 := Int.lt_floor_add_one q
  unfold pyRound
  split_ifs <;> push_cast <;> linarith

theorem pyRound_le (q : ℚ) : (pyRound q : ℚ) ≤ q + 1/2 := by
  have hfl : (⌊q⌋ : ℚ) ≤ q := Int.floor_le q
  have hfu : q < ⌊q⌋ + 1 := Int.lt_floor_add_one q
  unfold pyRound
  split_ifs <;> push_cast <;> linarith

theorem pyRound_gt_95 (p : ℚ) (h : 191/2 ≤ p) : 95 < pyRound p := by
  rcases lt_or_eq_of_le h with h2 | h2
  · have hl := le_pyRound p
    have : (95 : ℚ) < (pyRound p : ℚ) := by linarith
    exact_mod_cast this
  · rw [← h2]
    norm_num [pyRound]

theorem pyRound_le_95 (p : ℚ) (h : p < 191/2) : pyRound p ≤ 95 := by
  have hl := pyRound_le p
  have : (pyRound p : ℚ) < 96 := by linarith
  have h96 : pyRound p < 96 := by exact_mod_cast this
  omega

/-- C6: for every usage percentage in [0,100) and every observed state, the
reconcile decision applied a second time to the state produced by the first
application yields no action. -/
theorem reconcile_idempotent (u : ℚ) (h0 : 0 ≤ u) (h1 : u < 100) (e : Bool) :
    reconcile (applyAction (reconcile e u) e) u = Action.none := by
  rcases e <;> by_cases h : 95 ≤ u <;> simp [reconcile, applyAction, h]

theorem reconcile_idempotent_witness :
    reconcile (applyAction (reconcile true 50) true) 50 = Action.none :=
  reconcile_idempotent 50 (by norm_num) (by norm_num) true

/-- C8: the daily-digest progress bar satisfies the five concrete rendering
equations: 0 percent gives an empty bar, 100 percent a full bar, 0.5 percent
one filled cell, 96 percent nineteen filled cells, 50 percent ten. -/
theorem progress_bar_concrete_renderings :
    progress_bar 0 = "□□□□□□□□□□□□□□□□□□□□" ∧
    progress_bar 100 = "■■■■■■■■■■■■■■■■■■■■" ∧
    progress_bar (1/2) = "■□□□□□□□□□□□□□□□□□□□" ∧
    progress_bar 96 = "■■■■■■■■■■■■■■■■■■■□" ∧
    progress_bar 50 = "■■■■■■■■■■□□□□□□□□□□" := by
  refine ⟨?_, ?_, ?_, ?_, ?_⟩ <;> (norm_num [progress_bar, progress_do_num, pyRound]; decide)

/-- C9: a raising remote query degrades the affected value instead of
aborting: traffic degrades to 0 and the observed firewall-rule state to
disabled. -/
theorem remote_failure_degrades (e e2 : String) :
    get_traffic (Except.error e) = 0 ∧
    is_security_group_rule_enabled (Except.error e2) = false :=
  ⟨rfl, rfl⟩

theorem remote_failure_degrades_witness :
    get_traffic (Except.error "boom") = 0 ∧
    is_security_group_rule_enabled (Except.error "boom") = false :=
  remote_failure_degrades "boom" "boom"

/-- C2 counterexample: at a zero quota the evaluation fails with the
ZeroDivisionError raised by the division itself, which is not a
ConfigurationError. -/
theorem zero_quota_counterexample :
    usageEval 3 0 = Except.error PyExc.zeroDivision ∧
    Except.error PyExc.zeroDivision ≠
      (Except.error PyExc.configuration : Except PyExc ℚ) :=
  ⟨rfl, by simp⟩

/-- C2 amended: a zero maxTraffic quota makes the usage evaluation perform
the division and raise ZeroDivisionError (no ConfigurationError guard exists
in the code); check's generic per-account handler turns it into exactly one
error notification, with no mutating call and no log entry. -/
theorem zero_quota_zero_division (f : FanoutFlags) (acct : Account)
    (w : RemoteWorld) (ids : List String)
    (hids : w.describeInstancesResp = Except.ok ids)
    (hin : ids.contains acct.instanceId = true)
    (hq : acct.maxTraffic = 0) :
    usageEval (get_traffic w.trafficResp) acct.maxTraffic =
      Except.error PyExc.zeroDivision ∧
    processAccount f acct w =
      { mutations := [],
        notifs := [NotifMsg.error
            (acct.accountName.getD (acct.accessKeyId.take 7 ++ "***"))
            acct.instanceId (excMessage PyExc.zeroDivision)],
        log := none, printed := [] } := by
  have h1 : usageEval (get_traffic w.trafficResp) acct.maxTraffic =
      Except.error PyExc.zeroDivision := by
    simp [usageEval, hq]
  have hmem : acct.instanceId ∈ ids := by simpa using hin
  refine ⟨h1, ?_⟩
  simp [processAccount, validate_credentials_and_instance, hids, hmem,
    check_account_body, h1]

theorem zero_quota_zero_division_witness :
    usageEval (get_traffic sampleWorld.trafficResp)
      ({ sampleAccount with maxTraffic := 0 } : Account).maxTraffic =
      Except.error PyExc.zeroDivision ∧
    processAccount sampleFlags { sampleAccount with maxTraffic := 0 } sampleWorld =
      { mutations := [],
        notifs := [NotifMsg.error "acct" "i-123" "float division by zero"],
        log := none, printed := [] } :=
  zero_quota_zero_division sampleFlags { sampleAccount with maxTraffic := 0 }
    sampleWorld ["i-123", "i-456"] rfl (by decide) rfl

/-- C3 counterexample: 95.4 is strictly above 95 and strictly below 100, yet
the bar fills all 20 cells (round(95.4) = 95 fails the rounded guard and
round(0.5 + 19.5) rounds to 20); and at 4.8 the cell count is 2 while the
claimed round(0.5 + 20 * percentage / 100) formula gives 1. -/
theorem progress_bar_counterexample :
    ((95 : ℚ) < 477/5 ∧ (477/5 : ℚ) < 100 ∧ progress_do_num (477/5) = 20 ∧
      progress_bar (477/5) = "■■■■■■■■■■■■■■■■■■■■") ∧
    (progress_do_num (24/5) = 2 ∧
      min 20 (pyRound (1/2 + 20 * (24/5 : ℚ) / 100)) = 1) := by
  refine ⟨⟨by norm_num, by norm_num, ?_, ?_⟩, ?_, ?_⟩ <;>
    (norm_num [progress_bar, progress_do_num, pyRound]; try decide)

/-- C3 amended: in terms of the raw percentage p in [0,100], the cell count
is 0 at p = 0, 1 for p in (0,1), 19 for p in [95.5,100) (the percentages
whose half-to-even rounding exceeds 95), and otherwise
min(20, round(0.5 + 20 * round(p) / 100)) computed on the rounded
percentage; percentages in (95, 95.5) take the general formula, which can
fill all 20 cells before 100 percent. -/
theorem progress_do_num_rule (p : ℚ) (h0 : 0 ≤ p) (h1 : p ≤ 100) :
    progress_do_num p =
      if p = 0 then 0
      else if p < 1 then 1
      else if 191/2 ≤ p ∧ p < 100 then 19
      else min 20 (pyRound (1/2 + 20 * (pyRound p : ℚ) / 100)) := by
  by_cases hp0 : p = 0
  · subst hp0
    norm_num [progress_do_num, pyRound]
  by_cases hp1 : p < 1
  · have hpos : 0 < p := h0.lt_of_ne fun h => hp0 h.symm
    rw [progress_do_num, if_pos ⟨hpos, hp1⟩, if_neg hp0, if_pos hp1]
  push_neg at hp1
  have hnot01 : ¬(0 < p ∧ p < 1) := fun h => absurd h.2 (not_lt.mpr hp1)
  have hfl : (1 : ℤ) ≤ ⌊p⌋ := Int.le_floor.mpr (by exact_mod_cast hp1)
  have hpv1 : (1 : ℤ) ≤ pyRound p := hfl.trans (floor_le_pyRound p)
  have hpv0 : ¬(pyRound p = 0) := by omega
  by_cases hbig : 191/2 ≤ p
  · by_cases hlt : p < 100
    · have h95 : 95 < pyRound p := pyRound_gt_95 p hbig
      rw [progress_do_num, if_neg hnot01, if_neg hpv0, if_pos ⟨h95, hlt⟩,
        if_neg hp0, if_neg (not_lt.mpr hp1), if_pos ⟨hbig, hlt⟩]
      norm_num
    · rw [progress_do_num, if_neg hnot01, if_neg hpv0,
        if_neg (fun h : _ ∧ _ => hlt h.2), if_neg hp0, if_neg (not_lt.mpr hp1),
        if_neg (fun h : _ ∧ _ => hlt h.2)]
  · push_neg at hbig
    have h95 : pyRound p ≤ 95 := pyRound_le_95 p hbig
    rw [progress_do_num, if_neg hnot01, if_neg hpv0,
      if_neg (fun h : _ ∧ _ => absurd h.1 (not_lt.mpr h95)), if_neg hp0,
      if_neg (not_lt.mpr hp1),
      if_neg (fun h : _ ∧ _ => absurd h.1 (not_le.mpr hbig))]

theorem progress_do_num_rule_witness :
    progress_do_num 50 =
      if (50 : ℚ) = 0 then 0
      else if (50 : ℚ) < 1 then 1
      else if 191/2 ≤ (50 : ℚ) ∧ (50 : ℚ) < 100 then 19
      else min 20 (pyRound (1/2 + 20 * (pyRound (50 : ℚ) : ℚ) / 100)) :=
  progress_do_num_rule 50 (by norm_num) (by norm_num)

/-- C7: the traffic evaluator sums the Traffic fields with missing values as
zero and divides by 1024^3 to get GB; zero traffic yields a usage percentage
of 0 and a byte total of exactly maxTraffic * 1024^3 yields 100. -/
theorem usage_computation (items : List (Option ℤ)) (b : ℤ) (maxT : ℚ)
    (hm : maxT ≠ 0) (hb : (b : ℚ) = maxT * (1024 * 1024 * 1024)) :
    get_traffic (Except.ok items) =
      (((items.map fun i => i.getD 0).sum : ℤ) : ℚ) / (1024 * 1024 * 1024) ∧
    usageEval (get_traffic (Except.ok [some 0])) maxT = Except.ok 0 ∧
    usageEval (get_traffic (Except.ok [some b])) maxT = Except.ok 100 := by
  refine ⟨rfl, ?_, ?_⟩
  · have ht : get_traffic (Except.ok [some (0 : ℤ)]) = 0 := by
      simp [get_traffic]
    rw [ht, usageEval, if_neg hm]
    norm_num [pyRound2, pyRound]
  · have ht : get_traffic (Except.ok [some b]) = maxT := by
      simp only [get_traffic, List.map_cons, List.map_nil, Option.getD_some,
        List.sum_cons, List.sum_nil, add_zero]
      rw [hb]
      field_simp
    rw [ht, usageEval, if_neg hm, div_self hm]
    norm_num [pyRound2, pyRound]

theorem usage_computation_witness :
    get_traffic (Except.ok [some 5, none]) =
      ((([some 5, none].map fun i => i.getD 0).sum : ℤ) : ℚ) /
        (1024 * 1024 * 1024) ∧
    usageEval (get_traffic (Except.ok [some 0])) 1 = Except.ok 0 ∧
    usageEval (get_traffic (Except.ok [some (1024 * 1024 * 1024)])) 1 =
      Except.ok 100 :=
  usage_computation [some 5, none] (1024 * 1024 * 1024) 1 (by norm_num)
    (by norm_num)

/-- The spec's three-channel example: Bark, TG and webhook enabled. -/
def threeFlags : FanoutFlags := ⟨false, true, true, true, false⟩

/-- Behaviours where the TG send raises and the other two succeed. -/
def threeBehaviors : FanoutBehaviors :=
  ⟨ChannelBehavior.respond true, ChannelBehavior.respond true,
   ChannelBehavior.raise "connection reset", ChannelBehavior.respond true,
   ChannelBehavior.respond true⟩

/-- C4: the set of attempted channels depends only on the enable flags and
never on any channel's behaviour (a raising channel does not prevent the
rest); the aggregate is success exactly when every attempted outcome is
True, and otherwise it is the failure value embedding the full outcome map;
a raising channel is recorded as an error string (email) or False (the
others); and in the spec's three-channel example the two healthy channels
still appear with True next to the one failure entry. -/
theorem fanout_independent (f : FanoutFlags) (b b2 : FanoutBehaviors)
    (m : String) :
    ((send_notification_results f b).map Prod.fst =
      (send_notification_results f b2).map Prod.fst) ∧
    (send_notification f b = FanoutAggregate.success ∨
      send_notification f b =
        FanoutAggregate.failure (send_notification_results f b)) ∧
    (send_notification f b = FanoutAggregate.success ↔
      ∀ r ∈ send_notification_results f b, r.2 = SendResult.sTrue) ∧
    (send_email_notification (ChannelBehavior.raise m) = SendResult.sErr m ∧
     send_bark_notification (ChannelBehavior.raise m) = SendResult.sFalse ∧
     send_tg_notification (ChannelBehavior.raise m) = SendResult.sFalse ∧
     send_webhook_notification (ChannelBehavior.raise m) = SendResult.sFalse ∧
     send_qywx_notification (ChannelBehavior.raise m) = SendResult.sFalse) ∧
    (send_notification_results threeFlags threeBehaviors =
      [("bark", SendResult.sTrue), ("tg", SendResult.sFalse),
       ("webhook", SendResult.sTrue)] ∧
     send_notification threeFlags threeBehaviors =
      FanoutAggregate.failure
        [("bark", SendResult.sTrue), ("tg", SendResult.sFalse),
         ("webhook", SendResult.sTrue)]) := by
  have hall : ((send_notification_results f b).all
        fun r => r.2 == SendResult.sTrue) = true ↔
      ∀ r ∈ send_notification_results f b, r.2 = SendResult.sTrue := by
    simp [List.all_eq_true]
  refine ⟨?_, ?_, ?_, ⟨rfl, rfl, rfl, rfl, rfl⟩, by decide⟩
  · unfold send_notification_results
    split_ifs <;> rfl
  · by_cases h : ((send_notification_results f b).all
        fun r => r.2 == SendResult.sTrue) = true
    · exact Or.inl (by simp [send_notification, h])
    · exact Or.inr (by simp [send_notification, h])
  · by_cases h : ((send_notification_results f b).all
        fun r => r.2 == SendResult.sTrue) = true
    · simp [send_notification, h]
      intro a c hmem
      exact hall.mp h (a, c) hmem
    · simp only [send_notification, h]
      constructor
      · intro hcontra
        exact absurd hcontra (by simp)
      · intro hforall
        exact absurd (hall.mpr hforall) h

theorem fanout_independent_witness :
    send_notification_results threeFlags threeBehaviors =
      [("bark", SendResult.sTrue), ("tg", SendResult.sFalse),
       ("webhook", SendResult.sTrue)] ∧
    send_notification threeFlags threeBehaviors =
      FanoutAggregate.failure
        [("bark", SendResult.sTrue), ("tg", SendResult.sFalse),
         ("webhook", SendResult.sTrue)] :=
  (fanout_independent threeFlags threeBehaviors sampleBehaviors "x").2.2.2.2

/-- C1: for a validated account with a nonzero quota, the loop issues exactly
one Disable call when the usage is at least 95 with the rule enabled, exactly
one Enable call when the usage is below 95 with the rule disabled, no
mutating call in the two agreeing cases, and hands exactly one report record
to the notification fanout precisely when the reconcile action is not None
(and never an error record). -/
theorem check_threshold_table (f : FanoutFlags) (acct : Account)
    (w : RemoteWorld) (ids : List String)
    (hids : w.describeInstancesResp = Except.ok ids)
    (hin : ids.contains acct.instanceId = true) (hm : acct.maxTraffic ≠ 0) :
    (processAccount f acct w).mutations =
      (if 95 ≤ usageOf acct w then
        if observedEnabled w then [MutCall.revoke] else []
      else
        if observedEnabled w then [] else [MutCall.authorize]) ∧
    (processAccount f acct w).notifs.countP NotifMsg.isReport =
      (if reconcile (observedEnabled w) (usageOf acct w) = Action.none
       then 0 else 1) ∧
    (processAccount f acct w).notifs.countP
      (fun n => !(NotifMsg.isReport n)) = 0 := by
  have hmem : acct.instanceId ∈ ids := by simpa using hin
  have hu : usageEval (get_traffic w.trafficResp) acct.maxTraffic =
      Except.ok (usageOf acct w) := by
    simp [usageEval, hm, usageOf]
  cases hE : observedEnabled w <;> rw [observedEnabled] at hE <;>
    by_cases h95 : 95 ≤ usageOf acct w <;>
      simp [processAccount, validate_credentials_and_instance, hids, hmem,
        check_account_body, hu, check_toggle, reconcile, observedEnabled, hE,
        h95, NotifMsg.isReport, List.countP_cons, List.countP_nil]

theorem check_threshold_table_witness :
    (processAccount sampleFlags sampleAccount sampleWorld).mutations =
      (if 95 ≤ usageOf sampleAccount sampleWorld then
        if observedEnabled sampleWorld then [MutCall.revoke] else []
      else
        if observedEnabled sampleWorld then [] else [MutCall.authorize]) ∧
    (processAccount sampleFlags sampleAccount sampleWorld).notifs.countP
        NotifMsg.isReport =
      (if reconcile (observedEnabled sampleWorld)
          (usageOf sampleAccount sampleWorld) = Action.none then 0 else 1) ∧
    (processAccount sampleFlags sampleAccount sampleWorld).notifs.countP
      (fun n => !(NotifMsg.isReport n)) = 0 :=
  check_threshold_table sampleFlags sampleAccount sampleWorld
    ["i-123", "i-456"] rfl (by decide) (by norm_num [sampleAccount])

/-- C5: when the validation gate fails, either because the describe-instances
query raises or because the configured instance id is absent from the
returned list, the account's processing short-circuits with exactly one error
notification record carrying the account name, instance id and message, no
mutating call and no log entry. -/
theorem validation_gate (f : FanoutFlags) (acct : Account) (w : RemoteWorld)
    (msg : String)
    (h : w.describeInstancesResp = Except.error msg ∨
         (∃ ids, w.describeInstancesResp = Except.ok ids ∧
           ids.contains acct.instanceId = false ∧
           msg = "指定的实例ID不存在: " ++ acct.instanceId)) :
    processAccount f acct w =
      { mutations := [],
        notifs := [NotifMsg.error (acct.accountName.getD "") acct.instanceId
          msg],
        log := none, printed := [] } := by
  rcases h with h | ⟨ids, hids, hnin, hmsg⟩
  · simp [processAccount, validate_credentials_and_instance, h]
  · subst hmsg
    have hnmem : acct.instanceId ∉ ids := by simpa using hnin
    simp [processAccount, validate_credentials_and_instance, hids, hnmem]

/-- The sample world whose credentials query raises. -/
def badWorld : RemoteWorld :=
  { sampleWorld with describeInstancesResp := Except.error "InvalidAccessKeyId" }

theorem validation_gate_witness :
    processAccount sampleFlags sampleAccount badWorld =
      { mutations := [],
        notifs := [NotifMsg.error "acct" "i-123" "InvalidAccessKeyId"],
        log := none, printed := [] } :=
  validation_gate sampleFlags sampleAccount badWorld "InvalidAccessKeyId"
    (Or.inl rfl)

/-- C10: the log entry and the notifications of one loop iteration are
identical whether the mutating security-group calls succeed or raise (only
the printed line differs, since the helpers catch every exception and return
nothing); in the two mutating branches the 安全组状态 field reports the
target state as achieved and exactly one toggle notification is handed to the
fanout, regardless of the mutation outcome. -/
theorem mutation_failure_invisible (f : FanoutFlags) (acct : Account)
    (w : RemoteWorld) (ids : List String) (o o2 : Except String Unit)
    (hids : w.describeInstancesResp = Except.ok ids)
    (hin : ids.contains acct.instanceId = true) (hm : acct.maxTraffic ≠ 0) :
    ((processAccount f acct { w with revokeResp := o, authorizeResp := o }).log =
      (processAccount f acct
        { w with revokeResp := o2, authorizeResp := o2 }).log) ∧
    ((processAccount f acct
        { w with revokeResp := o, authorizeResp := o }).notifs =
      (processAccount f acct
        { w with revokeResp := o2, authorizeResp := o2 }).notifs) ∧
    ((processAccount f acct
        { w with revokeResp := o, authorizeResp := o }).mutations =
      (processAccount f acct
        { w with revokeResp := o2, authorizeResp := o2 }).mutations) ∧
    (((processAccount f acct
        { w with revokeResp := o, authorizeResp := o }).log.map
          fun lp => lp.1.sgState) =
      some (match reconcile (observedEnabled w) (usageOf acct w) with
            | Action.disable => "已禁用 0.0.0.0/0 访问规则"
            | Action.enable => "已恢复 0.0.0.0 访问规则"
            | Action.none =>
                if observedEnabled w then "规则已启用，无需操作"
                else "规则已禁用，无需操作")) ∧
    ((processAccount f acct
        { w with revokeResp := o, authorizeResp := o }).notifs.countP
          NotifMsg.isReport =
      if reconcile (observedEnabled w) (usageOf acct w) = Action.none
      then 0 else 1) := by
  have hmem : acct.instanceId ∈ ids := by simpa using hin
  have hu : usageEval (get_traffic w.trafficResp) acct.maxTraffic =
      Except.ok (usageOf acct w) := by
    simp [usageEval, hm, usageOf]
  cases hE : observedEnabled w <;> rw [observedEnabled] at hE <;>
    by_cases h95 : 95 ≤ usageOf acct w <;>
      simp [processAccount, validate_credentials_and_instance, hids, hmem,
        check_account_body, hu, check_toggle, reconcile, observedEnabled, hE,
        h95, NotifMsg.isReport, List.countP_cons, List.countP_nil, aggStatus]

theorem mutation_failure_invisible_witness :
    ((processAccount sampleFlags sampleAccount
        { sampleWorld with
          revokeResp := Except.error "boom",
          authorizeResp := Except.error "boom" }).log =
      (processAccount sampleFlags sampleAccount
        { sampleWorld with
          revokeResp := Except.ok (),
          authorizeResp := Except.ok () }).log) ∧
    ((processAccount sampleFlags sampleAccount
        { sampleWorld with
          revokeResp := Except.error "boom",
          authorizeResp := Except.error "boom" }).notifs =
      (processAccount sampleFlags sampleAccount
        { sampleWorld with
          revokeResp := Except.ok (),
          authorizeResp := Except.ok () }).notifs) ∧
    ((processAccount sampleFlags sampleAccount
        { sampleWorld with
          revokeResp := Except.error "boom",
          authorizeResp := Except.error "boom" }).mutations =
      (processAccount sampleFlags sampleAccount
        { sampleWorld with
          revokeResp := Except.ok (),
          authorizeResp := Except.ok () }).mutations) ∧
    (((processAccount sampleFlags sampleAccount
        { sampleWorld with
          revokeResp := Except.error "boom",
          authorizeResp := Except.error "boom" }).log.map
          fun lp => lp.1.sgState) =
      some (match reconcile (observedEnabled sampleWorld)
              (usageOf sampleAccount sampleWorld) with
            | Action.disable => "已禁用 0.0.0.0/0 访问规则"
            | Action.enable => "已恢复 0.0.0.0 访问规则"
            | Action.none =>
                if observedEnabled sampleWorld then "规则已启用，无需操作"
                else "规则已禁用，无需操作")) ∧
    ((processAccount sampleFlags sampleAccount
        { sampleWorld with
          revokeResp := Except.error "boom",
          authorizeResp := Except.error "boom" }).notifs.countP
          NotifMsg.isReport =
      if reconcile (observedEnabled sampleWorld)
          (usageOf sampleAccount sampleWorld) = Action.none
      then 0 else 1) :=
  mutation_failure_invisible sampleFlags sampleAccount sampleWorld
    ["i-123", "i-456"] (Except.error "boom") (Except.ok ()) rfl (by decide)
    (by norm_num [sampleAccount])

end CdtCheck
